import Mathlib

/-!
# The item list of `src/App.jsx`

A shallow embedding of the `App` component of `src/App.jsx`: its four `useState`
cells and its three asynchronous operations `fetchItems`, `addItem` and `removeItem`,
each of which awaits one call of the remote client.

The remote client is not part of the component.  Every operation therefore takes the
outcome of the call it awaits as an argument, and reports the calls it issued.
-/

namespace App

/-! ## Data model -/

/-- One row of the `items` table, `{ id, text, created_at }`.  The timestamp is kept as a
number, larger meaning later. -/
structure Record where
  id : Nat
  text : String
  created_at : Nat
  deriving DecidableEq, Repr

/-- An error object, as found in the `error` member of a response or thrown by an awaited
call.  Its `message` property is a string, or is absent (`undefined`), which is `none`. -/
structure JsError where
  message : Option String
  deriving DecidableEq, Repr

/-- What `await` of a remote call yields.
* `success data`: the promise resolves to `{ data, error: null }`;
* `failure error`: the promise resolves to `{ data: null, error }` with an error object;
* `rejected reason`: the promise rejects, so `await` throws `reason`. -/
inductive Outcome (α : Type) where
  | success (data : α)
  | failure (error : JsError)
  | rejected (reason : JsError)
  deriving DecidableEq, Repr

/-- The requests the component sends to the remote client. -/
inductive RemoteCall where
  /-- The call `from("items").select("id, text, created_at").order("created_at", ...)`,
  descending. -/
  | select
  /-- The call `from("items").insert({ text }).select().single()`. -/
  | insert (text : String)
  /-- The call `from("items").delete().eq("id", id)`. -/
  | delete (id : Nat)
  deriving DecidableEq, Repr

/-- The four `useState` cells of `App`.  `error` starts as the string `""`; `fetchItems`
stores `error.message` in it unguarded, so it can also hold `undefined`, which is `none`. -/
structure State where
  items : List Record
  text : String
  loading : Bool
  error : Option String
  deriving DecidableEq, Repr

/-- The state at mount: `useState([])`, `useState("")`, `useState(false)`, `useState("")`. -/
def initialState : State :=
  { items := [], text := "", loading := false, error := some "" }

/-- What an operation leaves behind once its promise settles: the state, the value its
promise rejected with (if it did not complete normally), and the remote calls issued. -/
structure Completion where
  state : State
  raised : Option JsError
  calls : List RemoteCall
  deriving DecidableEq, Repr

/-! ## JavaScript primitives used by the component -/

/-- The code points `String.prototype.trim` strips: ECMAScript `WhiteSpace` and
`LineTerminator`. -/
def isJsWhiteSpace (c : Char) : Bool :=
  let n := c.toNat
  n == 0x09 || n == 0x0A || n == 0x0B || n == 0x0C || n == 0x0D || n == 0x20 ||
  n == 0xA0 || n == 0x1680 || (0x2000 ≤ n && n ≤ 0x200A) || n == 0x2028 || n == 0x2029 ||
  n == 0x202F || n == 0x205F || n == 0x3000 || n == 0xFEFF

/-- The method `String.prototype.trim`: white space removed from both ends. -/
def jsTrim (s : String) : String :=
  ⟨((s.data.dropWhile isJsWhiteSpace).reverse.dropWhile isJsWhiteSpace).reverse⟩

/-- The expression `m || fallback` for `m` a string or `undefined`: the fallback is taken
when `m` is `undefined` or the empty string. -/
def jsOr (m : Option String) (fallback : String) : String :=
  match m with
  | some t => if t = "" then fallback else t
  | none => fallback

/-! ## The operations -/

/-- The synchronous prefix of `fetchItems`, up to the `await`: `setError("")`. -/
def fetchItemsStart (s : State) : State :=
  { s with error := some "" }

/-- The rest of `fetchItems` once the awaited select settles.  There is no `try` around the
`await`: a rejection leaves the function at once, with the state as it was. -/
def fetchItemsResume (s : State) : Outcome (Option (List Record)) → State × Option JsError
  | .success data => ({ s with items := data.getD [] }, none)
  | .failure error => ({ s with error := error.message }, none)
  | .rejected reason => (s, some reason)

/-- The function `fetchItems`. -/
def fetchItems (s : State) (o : Outcome (Option (List Record))) : Completion :=
  let r := fetchItemsResume (fetchItemsStart s) o
  { state := r.1, raised := r.2, calls := [.select] }

/-- The synchronous prefix of `addItem`: the guard `if (!text.trim()) return;`, then
`setLoading(true); setError("")`.  `none` is the early return.  (`e.preventDefault()` acts
on the event only.) -/
def addItemStart (s : State) : Option State :=
  if jsTrim s.text = "" then none
  else some { s with loading := true, error := some "" }

/-- The `try` block of `addItem` from the `await` on: `if (error) throw error;`, then
`setItems((prev) => [data, ...prev]); setText("")`. -/
def addItemTry (s : State) : Outcome Record → Except JsError State
  | .success data => .ok { s with items := data :: s.items, text := "" }
  | .failure error => .error error
  | .rejected reason => .error reason

/-- The `try`/`catch`/`finally` of `addItem`: the handler is
`setError(err.message || "Failed to add")`, and `finally` is `setLoading(false)`. -/
def addItemResume (s : State) (o : Outcome Record) : State :=
  let s1 :=
    match addItemTry s o with
    | .ok s2 => s2
    | .error err => { s with error := some (jsOr err.message "Failed to add") }
  { s1 with loading := false }

/-- The function `addItem`, the form's submit handler; the text is the `text` cell. -/
def addItem (s : State) (o : Outcome Record) : Completion :=
  match addItemStart s with
  | none => { state := s, raised := none, calls := [] }
  | some s1 => { state := addItemResume s1 o, raised := none, calls := [.insert s.text] }

/-- The synchronous prefix of `removeItem`: `setLoading(true); setError("")`. -/
def removeItemStart (s : State) : State :=
  { s with loading := true, error := some "" }

/-- The `try` block of `removeItem` from the `await` on: `if (error) throw error;`, then
`setItems((prev) => prev.filter((i) => i.id !== id))`. -/
def removeItemTry (s : State) (id : Nat) : Outcome Unit → Except JsError State
  | .success _ => .ok { s with items := s.items.filter (fun i => i.id != id) }
  | .failure error => .error error
  | .rejected reason => .error reason

/-- The `try`/`catch`/`finally` of `removeItem`: the handler is
`setError(err.message || "Failed to remove")`, and `finally` is `setLoading(false)`. -/
def removeItemResume (s : State) (id : Nat) (o : Outcome Unit) : State :=
  let s1 :=
    match removeItemTry s id o with
    | .ok s2 => s2
    | .error err => { s with error := some (jsOr err.message "Failed to remove") }
  { s1 with loading := false }

/-- The function `removeItem`. -/
def removeItem (s : State) (id : Nat) (o : Outcome Unit) : Completion :=
  { state := removeItemResume (removeItemStart s) id o, raised := none,
    calls := [.delete id] }

/-- The input's `onChange` handler: `setText(e.target.value)`. -/
def onChange (s : State) (value : String) : State :=
  { s with text := value }

/-- The error object a failed remote call carries, whether it came back in the response or
was thrown by the `await`; `none` for a success. -/
def Outcome.error? {α : Type} : Outcome α → Option JsError
  | .success _ => none
  | .failure error => some error
  | .rejected reason => some reason

/-! ## Sequences of operations -/

/-- One user-level operation together with the outcome of its remote call.  `create` is
typing `text` into the input and submitting the form. -/
inductive Op where
  | refresh (o : Outcome (Option (List Record)))
  | create (text : String) (o : Outcome Record)
  | remove (id : Nat) (o : Outcome Unit)
  deriving DecidableEq, Repr

/-- The state one operation leaves behind. -/
def step (s : State) : Op → State
  | .refresh o => (fetchItems s o).state
  | .create text o => (addItem (onChange s text) o).state
  | .remove id o => (removeItem s id o).state

/-- Running operations one after the other, each settling before the next starts. -/
def run (s : State) (ops : List Op) : State :=
  ops.foldl step s

/-! ## The collection invariant -/

/-- The ids of a list are pairwise distinct. -/
def DistinctIds (items : List Record) : Prop :=
  (items.map (fun i => i.id)).Nodup

/-- The list is ordered by `created_at` descending, newest first. -/
def NewestFirst (items : List Record) : Prop :=
  items.Pairwise (fun a b => b.created_at ≤ a.created_at)

instance (items : List Record) : Decidable (DistinctIds items) := by
  unfold DistinctIds; infer_instance

instance (items : List Record) : Decidable (NewestFirst items) := by
  unfold NewestFirst; infer_instance

/-- A response the invariant can rely on, relative to the items held when it arrives: a
successful select is itself distinct and newest first; a successful insert (one is only
issued for a text that is not blank) returns a record whose id is not among the items and
which is not older than any of them. -/
def Op.Reliable (items : List Record) : Op → Prop
  | .refresh (.success data) => DistinctIds (data.getD []) ∧ NewestFirst (data.getD [])
  | .create text (.success r) =>
    jsTrim text ≠ "" → (∀ i ∈ items, i.id ≠ r.id) ∧ (∀ i ∈ items, i.created_at ≤ r.created_at)
  | _ => True

instance (items : List Record) (op : Op) : Decidable (op.Reliable items) := by
  cases op with
  | refresh o => cases o <;> (simp only [Op.Reliable]; infer_instance)
  | create text o => cases o <;> (simp only [Op.Reliable]; infer_instance)
  | remove id o => simp only [Op.Reliable]; infer_instance

/-- Every operation of the sequence meets `Op.Reliable` at the state it runs in. -/
def ReliableRun (s : State) : List Op → Prop
  | [] => True
  | op :: ops => op.Reliable s.items ∧ ReliableRun (step s op) ops

instance (s : State) (ops : List Op) : Decidable (ReliableRun s ops) := by
  induction ops generalizing s with
  | nil => exact isTrue trivial
  | cons op ops ih => exact @instDecidableAnd _ _ _ (ih (step s op))

/-! ## Helper lemmas -/

theorem jsOr_ne_empty (m : Option String) (fallback : String) (h : fallback ≠ "") :
    jsOr m fallback ≠ "" := by
  unfold jsOr
  split
  · split <;> assumption
  · exact h

theorem dropWhile_eq_nil_of_all {α : Type} (p : α → Bool) (l : List α)
    (h : ∀ c ∈ l, p c = true) : l.dropWhile p = [] := by
  induction l with
  | nil => rfl
  | cons a t ih =>
    have ha : p a = true := h a (List.mem_cons_self a t)
    simp only [List.dropWhile_cons, ha, if_true]
    exact ih (fun c hc => h c (List.mem_cons_of_mem a hc))

theorem all_of_dropWhile_eq_nil {α : Type} (p : α → Bool) (l : List α)
    (h : l.dropWhile p = []) : ∀ c ∈ l, p c = true := by
  induction l with
  | nil => intro c hc; cases hc
  | cons a t ih =>
    by_cases ha : p a = true
    · simp only [List.dropWhile_cons, ha, if_true] at h
      intro c hc
      rcases List.mem_cons.mp hc with rfl | hc
      · exact ha
      · exact ih h c hc
    · simp [List.dropWhile_cons, ha] at h

/-- The trimmed value is empty exactly for the texts made of white space only, the empty
string among them. -/
theorem jsTrim_eq_empty_iff (t : String) :
    jsTrim t = "" ↔ ∀ c ∈ t.data, isJsWhiteSpace c = true := by
  unfold jsTrim
  constructor
  · intro h
    have h1 : ((t.data.dropWhile isJsWhiteSpace).reverse.dropWhile isJsWhiteSpace).reverse
        = [] := congrArg String.data h
    have h2 : (t.data.dropWhile isJsWhiteSpace).reverse.dropWhile isJsWhiteSpace = [] :=
      List.reverse_eq_nil_iff.mp h1
    have h3 : ∀ c ∈ (t.data.dropWhile isJsWhiteSpace).reverse, isJsWhiteSpace c = true :=
      all_of_dropWhile_eq_nil _ _ h2
    have h4 : t.data.dropWhile isJsWhiteSpace = [] := by
      cases hd : t.data.dropWhile isJsWhiteSpace with
      | nil => rfl
      | cons a l =>
        have hna : ¬ isJsWhiteSpace a = true := by
          have := List.head_dropWhile_not isJsWhiteSpace t.data (by simp [hd])
          simpa [hd] using this
        exact absurd (h3 a (by simp [hd])) hna
    exact all_of_dropWhile_eq_nil _ _ h4
  · intro h
    rw [dropWhile_eq_nil_of_all _ _ h]
    rfl

theorem addItem_of_not_blank (s : State) (o : Outcome Record) (h : jsTrim s.text ≠ "") :
    addItem s o =
      { state := addItemResume { s with loading := true, error := some "" } o,
        raised := none, calls := [.insert s.text] } := by
  simp [addItem, addItemStart, h]

theorem addItem_of_blank (s : State) (o : Outcome Record) (h : jsTrim s.text = "") :
    addItem s o = { state := s, raised := none, calls := [] } := by
  simp [addItem, addItemStart, h]

theorem removeItem_success_items (s : State) (id : Nat) :
    (removeItem s id (.success ())).state.items = s.items.filter (fun i => i.id != id) := by
  simp [removeItem, removeItemStart, removeItemResume, removeItemTry]

/-- A list in which exactly one element satisfies `p` splits around that element. -/
theorem split_of_countP_eq_one {α : Type} (p : α → Bool) (l : List α)
    (h : l.countP p = 1) :
    ∃ l1 r l2, l = l1 ++ r :: l2 ∧ p r = true ∧
      (∀ i ∈ l1, p i = false) ∧ (∀ i ∈ l2, p i = false) := by
  induction l with
  | nil => simp at h
  | cons a t ih =>
    by_cases ha : p a = true
    · have ht : t.countP p = 0 := by
        rw [List.countP_cons_of_pos p t ha] at h
        omega
      refine ⟨[], a, t, rfl, ha, fun i hi => (by cases hi), fun i hi => ?_⟩
      have := List.countP_eq_zero.mp ht i hi
      simpa using this
    · rw [List.countP_cons_of_neg p t ha] at h
      obtain ⟨l1, r, l2, rfl, hr, h1, h2⟩ := ih h
      refine ⟨a :: l1, r, l2, rfl, hr, fun i hi => ?_, h2⟩
      rcases List.mem_cons.mp hi with rfl | hi
      · simpa using ha
      · exact h1 i hi

theorem removeItem_failed_items (s : State) (id : Nat) (o : Outcome Unit) (e : JsError)
    (h : o.error? = some e) : (removeItem s id o).state.items = s.items := by
  cases o <;> simp_all [Outcome.error?, removeItem, removeItemStart, removeItemResume,
    removeItemTry]

theorem distinctIds_filter (items : List Record) (p : Record → Bool)
    (h : DistinctIds items) : DistinctIds (items.filter p) :=
  List.Nodup.sublist ((List.filter_sublist items).map _) h

theorem newestFirst_filter (items : List Record) (p : Record → Bool)
    (h : NewestFirst items) : NewestFirst (items.filter p) :=
  List.Pairwise.sublist (List.filter_sublist items) h

/-- One operation whose response is reliable keeps the list distinct and newest first. -/
theorem step_preserves_invariant (s : State) (op : Op) (hd : DistinctIds s.items)
    (hn : NewestFirst s.items) (hr : op.Reliable s.items) :
    DistinctIds (step s op).items ∧ NewestFirst (step s op).items := by
  cases op with
  | refresh o =>
    cases o with
    | success data => exact hr
    | failure e => exact ⟨hd, hn⟩
    | rejected e => exact ⟨hd, hn⟩
  | create text o =>
    by_cases hb : jsTrim text = ""
    · have hs : (step s (.create text o)).items = s.items := by
        show (addItem (onChange s text) o).state.items = s.items
        rw [addItem_of_blank (onChange s text) o hb]
        rfl
      rw [hs]
      exact ⟨hd, hn⟩
    · have hs := addItem_of_not_blank (onChange s text) o hb
      cases o with
      | success r =>
        have hi : (step s (.create text (.success r))).items = r :: s.items := by
          show (addItem (onChange s text) _).state.items = _
          rw [hs]
          simp [addItemResume, addItemTry, onChange]
        obtain ⟨hfresh, hnew⟩ := hr hb
        rw [hi]
        constructor
        · unfold DistinctIds at hd ⊢
          rw [List.map_cons, List.nodup_cons]
          refine ⟨fun hmem => ?_, hd⟩
          obtain ⟨i, hi1, hi2⟩ := List.mem_map.mp hmem
          exact hfresh i hi1 hi2
        · unfold NewestFirst at hn ⊢
          exact List.pairwise_cons.mpr ⟨hnew, hn⟩
      | failure e =>
        have hi : (step s (.create text (.failure e))).items = s.items := by
          show (addItem (onChange s text) _).state.items = _
          rw [hs]
          simp [addItemResume, addItemTry, onChange]
        rw [hi]
        exact ⟨hd, hn⟩
      | rejected e =>
        have hi : (step s (.create text (.rejected e))).items = s.items := by
          show (addItem (onChange s text) _).state.items = _
          rw [hs]
          simp [addItemResume, addItemTry, onChange]
        rw [hi]
        exact ⟨hd, hn⟩
  | remove id o =>
    cases o with
    | success u =>
      have hi : (step s (.remove id (.success u))).items
          = s.items.filter (fun i => i.id != id) := removeItem_success_items s id
      rw [hi]
      exact ⟨distinctIds_filter _ _ hd, newestFirst_filter _ _ hn⟩
    | failure e =>
      have hi : (step s (.remove id (.failure e))).items = s.items :=
        removeItem_failed_items s id _ e rfl
      rw [hi]
      exact ⟨hd, hn⟩
    | rejected e =>
      have hi : (step s (.remove id (.rejected e))).items = s.items :=
        removeItem_failed_items s id _ e rfl
      rw [hi]
      exact ⟨hd, hn⟩

/-- A sequence of operations whose responses are all reliable keeps the list distinct and
newest first, from any state where it is so. -/
theorem run_preserves_invariant (ops : List Op) :
    ∀ s : State, DistinctIds s.items → NewestFirst s.items → ReliableRun s ops →
      DistinctIds (run s ops).items ∧ NewestFirst (run s ops).items := by
  induction ops with
  | nil => intro s hd hn _; exact ⟨hd, hn⟩
  | cons op ops ih =>
    intro s hd hn hr
    obtain ⟨h1, h2⟩ := step_preserves_invariant s op hd hn hr.1
    exact ih (step s op) h1 h2 hr.2

/-! ## The claims -/

/-- C1. Failure isolates state: when the text is not blank and the remote insert of
`addItem` fails, or when the remote delete of `removeItem` fails (an error in the response
or a thrown fault, carrying `e`), `items` is what it was before the call and `error` holds
a non-empty message: the message of `e`, or the fallback text when that message is empty or
missing. -/
theorem failure_isolates_state (s : State) (id : Nat) (e : JsError) :
    (jsTrim s.text ≠ "" → ∀ o : Outcome Record, o.error? = some e →
      (addItem s o).state.items = s.items ∧
      (addItem s o).state.error = some (jsOr e.message "Failed to add") ∧
      jsOr e.message "Failed to add" ≠ "") ∧
    (∀ o : Outcome Unit, o.error? = some e →
      (removeItem s id o).state.items = s.items ∧
      (removeItem s id o).state.error = some (jsOr e.message "Failed to remove") ∧
      jsOr e.message "Failed to remove" ≠ "") := by
  refine ⟨fun h o ho => ?_, fun o ho => ?_⟩
  · rw [addItem_of_not_blank s o h]
    refine ⟨?_, ?_, jsOr_ne_empty _ _ (by decide)⟩
    · cases o <;> simp_all [Outcome.error?, addItemResume, addItemTry]
    · cases o <;> simp_all [Outcome.error?, addItemResume, addItemTry]
  · refine ⟨?_, ?_, jsOr_ne_empty _ _ (by decide)⟩
    · cases o <;>
        simp_all [Outcome.error?, removeItem, removeItemStart, removeItemResume, removeItemTry]
    · cases o <;>
        simp_all [Outcome.error?, removeItem, removeItemStart, removeItemResume, removeItemTry]

/-- Witness for C1: a failed insert with a missing message and a failed delete with a
missing message, on a list of one item. -/
theorem failure_isolates_state_witness :
    (addItem ⟨[⟨1, "a", 5⟩], "milk", false, some ""⟩ (.failure ⟨none⟩)).state.items
        = [⟨1, "a", 5⟩] ∧
    (addItem ⟨[⟨1, "a", 5⟩], "milk", false, some ""⟩ (.failure ⟨none⟩)).state.error
        = some "Failed to add" ∧
    (removeItem ⟨[⟨1, "a", 5⟩], "milk", false, some ""⟩ 1 (.rejected ⟨none⟩)).state.items
        = [⟨1, "a", 5⟩] ∧
    (removeItem ⟨[⟨1, "a", 5⟩], "milk", false, some ""⟩ 1 (.rejected ⟨none⟩)).state.error
        = some "Failed to remove" :=
  have h := failure_isolates_state ⟨[⟨1, "a", 5⟩], "milk", false, some ""⟩ 1 ⟨none⟩
  have ha := h.1 (by decide) (.failure ⟨none⟩) rfl
  have hr := h.2 (.rejected ⟨none⟩) rfl
  ⟨ha.1, ha.2.1, hr.1, hr.2.1⟩

/-- C2. No-op on blank input: when the trimmed text is empty, `addItem` issues no remote
call and leaves `items`, `loading` and `error` (indeed the whole state) as they were. -/
theorem addItem_blank_noop (s : State) (o : Outcome Record) (h : jsTrim s.text = "") :
    (addItem s o).calls = [] ∧
    (addItem s o).state.items = s.items ∧
    (addItem s o).state.loading = s.loading ∧
    (addItem s o).state.error = s.error ∧
    (addItem s o).state = s ∧
    (addItem s o).raised = none := by
  rw [addItem_of_blank s o h]
  exact ⟨rfl, rfl, rfl, rfl, rfl, rfl⟩

/-- Witness for C2: three blanks submitted while `loading` is set and an error is shown. -/
theorem addItem_blank_noop_witness :
    jsTrim "   " = "" ∧
    (addItem ⟨[⟨1, "a", 5⟩], "   ", true, some "boom"⟩ (.success ⟨2, "   ", 6⟩)).calls = [] ∧
    (addItem ⟨[⟨1, "a", 5⟩], "   ", true, some "boom"⟩ (.success ⟨2, "   ", 6⟩)).state
      = ⟨[⟨1, "a", 5⟩], "   ", true, some "boom"⟩ :=
  have h := addItem_blank_noop ⟨[⟨1, "a", 5⟩], "   ", true, some "boom"⟩
    (.success ⟨2, "   ", 6⟩) (by decide)
  ⟨by decide, h.1, h.2.2.2.2.1⟩

/-- C3. Delete is exact: after a successful `removeItem(id)` the new `items` is the old
list with every record of that id dropped and the others kept in their order (a sublist
holding exactly the records of another id); when the id occurs exactly once, the list
splits around that one record, the new list is the two sides joined, and it is one
shorter. -/
theorem removeItem_exact (s : State) (id : Nat) :
    (removeItem s id (.success ())).state.items = s.items.filter (fun i => i.id != id) ∧
    (removeItem s id (.success ())).state.items.Sublist s.items ∧
    (∀ r, r ∈ (removeItem s id (.success ())).state.items ↔ r ∈ s.items ∧ r.id ≠ id) ∧
    (s.items.countP (fun i => i.id == id) = 1 →
      (∃ l1 r l2, s.items = l1 ++ r :: l2 ∧ r.id = id ∧
        (∀ i ∈ l1 ++ l2, i.id ≠ id) ∧
        (removeItem s id (.success ())).state.items = l1 ++ l2) ∧
      (removeItem s id (.success ())).state.items.length + 1 = s.items.length) := by
  rw [removeItem_success_items]
  refine ⟨rfl, List.filter_sublist _, fun r => (by simp [List.mem_filter]), fun h => ?_⟩
  obtain ⟨l1, r, l2, hl, hr, h1, h2⟩ := split_of_countP_eq_one _ _ h
  have hr1 : r.id = id := by simpa using hr
  have h1a : ∀ i ∈ l1, i.id ≠ id := fun i hi => by simpa using h1 i hi
  have h2a : ∀ i ∈ l2, i.id ≠ id := fun i hi => by simpa using h2 i hi
  have hf1 : l1.filter (fun i => i.id != id) = l1 :=
    List.filter_eq_self.mpr (fun i hi => by simpa using h1a i hi)
  have hf2 : l2.filter (fun i => i.id != id) = l2 :=
    List.filter_eq_self.mpr (fun i hi => by simpa using h2a i hi)
  have hfilter : s.items.filter (fun i => i.id != id) = l1 ++ l2 := by
    rw [hl, List.filter_append, List.filter_cons_of_neg (by simp [hr1]), hf1, hf2]
  refine ⟨⟨l1, r, l2, hl, hr1, fun i hi => ?_, hfilter⟩, ?_⟩
  · rcases List.mem_append.mp hi with hi | hi
    · exact h1a i hi
    · exact h2a i hi
  · rw [hfilter, hl]
    simp only [List.length_append, List.length_cons]
    omega

/-- Witness for C3: removing id 2 from a list of three, where it occurs once. -/
theorem removeItem_exact_witness :
    (removeItem ⟨[⟨3, "c", 9⟩, ⟨2, "b", 7⟩, ⟨1, "a", 5⟩], "", false, some ""⟩ 2
        (.success ())).state.items.length + 1 = 3 :=
  ((removeItem_exact ⟨[⟨3, "c", 9⟩, ⟨2, "b", 7⟩, ⟨1, "a", 5⟩], "", false, some ""⟩ 2).2.2.2
    (by decide)).2

/-- C4. Create prepends the confirmed record: after a successful `addItem` with a text
that is not blank, `items` is the record returned by the remote insert (whatever it is,
it is not rebuilt from the text) followed by the previous items, one longer, and `error`
is the empty string; one insert of the text was issued and the call completes normally. -/
theorem addItem_success_prepends (s : State) (r : Record) (h : jsTrim s.text ≠ "") :
    (addItem s (.success r)).state.items = r :: s.items ∧
    (addItem s (.success r)).state.items.length = s.items.length + 1 ∧
    (addItem s (.success r)).state.items.head? = some r ∧
    (addItem s (.success r)).state.items.tail = s.items ∧
    (addItem s (.success r)).state.error = some "" ∧
    (addItem s (.success r)).calls = [.insert s.text] ∧
    (addItem s (.success r)).raised = none := by
  rw [addItem_of_not_blank s _ h]
  simp [addItemResume, addItemTry]

/-- Witness for C4: the second scenario of the specification, with a server record whose
text differs from the one typed. -/
theorem addItem_success_prepends_witness :
    (addItem ⟨[⟨1, "Buy milk", 10⟩], " Walk dog ", false, some "old"⟩
        (.success ⟨2, "Walk dog", 20⟩)).state.items
      = [⟨2, "Walk dog", 20⟩, ⟨1, "Buy milk", 10⟩] ∧
    (addItem ⟨[⟨1, "Buy milk", 10⟩], " Walk dog ", false, some "old"⟩
        (.success ⟨2, "Walk dog", 20⟩)).state.error = some "" :=
  have h := addItem_success_prepends ⟨[⟨1, "Buy milk", 10⟩], " Walk dog ", false, some "old"⟩
    ⟨2, "Walk dog", 20⟩ (by decide)
  ⟨h.1, h.2.2.2.2.1⟩

/-- The refresh postcondition for a select that resolves: a successful `fetchItems` sets
`items` to the returned sequence whatever it held before (the empty list for a null
payload) with `error` the empty string; a `fetchItems` whose response carries an error
leaves `items` unchanged and sets `error` to that error's message; and a second
`fetchItems` receiving the same outcome leaves the state the first one left. -/
theorem fetchItems_resolved_postcondition (s : State) :
    (∀ data, (fetchItems s (.success data)).state.items = data.getD [] ∧
      (fetchItems s (.success data)).state.error = some "") ∧
    (∀ l, (fetchItems s (.success (some l))).state.items = l) ∧
    (fetchItems s (.success none)).state.items = [] ∧
    (∀ e, (fetchItems s (.failure e)).state.items = s.items ∧
      (fetchItems s (.failure e)).state.error = e.message) ∧
    (∀ o, (fetchItems (fetchItems s o).state o).state = (fetchItems s o).state) := by
  refine ⟨fun data => ⟨rfl, rfl⟩, fun l => rfl, rfl, fun e => ⟨rfl, rfl⟩, fun o => ?_⟩
  cases o <;> rfl

/-- C5 at the failing input: when the awaited select rejects, the refresh has failed,
`items` is left unchanged, but `error` is not set to the failure's message: it stays at the
empty string `fetchItems` cleared it to, because no `try` surrounds the `await`. -/
theorem fetchItems_rejected_message_lost :
    (fetchItems ⟨[⟨2, "b", 7⟩, ⟨1, "a", 5⟩], "", false, some "old failure"⟩
      (.rejected ⟨some "Failed to fetch"⟩)).state.items = [⟨2, "b", 7⟩, ⟨1, "a", 5⟩] ∧
    (fetchItems ⟨[⟨2, "b", 7⟩, ⟨1, "a", 5⟩], "", false, some "old failure"⟩
      (.rejected ⟨some "Failed to fetch"⟩)).state.error = some "" ∧
    (fetchItems ⟨[⟨2, "b", 7⟩, ⟨1, "a", 5⟩], "", false, some "old failure"⟩
      (.rejected ⟨some "Failed to fetch"⟩)).state.error ≠ some "Failed to fetch" := by
  decide

/-- C6, as the code has it: after `removeItem`, and after `addItem` with a text that is not
blank, `loading` is false, for every prior state and every outcome of the remote call;
`addItem` with a blank text returns before touching `loading` and leaves it as it was. -/
theorem loading_resets (s : State) (id : Nat) (oa : Outcome Record) (od : Outcome Unit) :
    (removeItem s id od).state.loading = false ∧
    (jsTrim s.text ≠ "" → (addItem s oa).state.loading = false) ∧
    (jsTrim s.text = "" → (addItem s oa).state.loading = s.loading) := by
  refine ⟨?_, fun h => ?_, fun h => ?_⟩
  · simp [removeItem, removeItemResume]
  · rw [addItem_of_not_blank s oa h]
    simp [addItemResume]
  · rw [addItem_of_blank s oa h]

/-- Witness for C6 as amended: a failed insert of a real text, and a blank submit, both
started with `loading` set. -/
theorem loading_resets_witness :
    (addItem ⟨[], "x", true, some ""⟩ (.rejected ⟨some "network error"⟩)).state.loading
      = false ∧
    (addItem ⟨[], " ", true, some ""⟩ (.rejected ⟨some "network error"⟩)).state.loading
      = true :=
  ⟨(loading_resets ⟨[], "x", true, some ""⟩ 0 (.rejected ⟨some "network error"⟩)
      (.success ())).2.1 (by decide),
   (loading_resets ⟨[], " ", true, some ""⟩ 0 (.rejected ⟨some "network error"⟩)
      (.success ())).2.2 (by decide)⟩

/-- C6 as stated fails: with `loading` already true (a delete is in flight) a submit of a
blank text returns at the guard, before the `try`, and `loading` is still true. -/
theorem loading_stays_set_on_blank :
    (addItem ⟨[⟨1, "a", 5⟩], "   ", true, some ""⟩ (.success ⟨2, "   ", 6⟩)).state.loading
      = true := by
  decide

/-- C7, as the code has it: from the empty initial state, after every sequence of refresh,
create and remove operations in which each successful select returned a list with distinct
ids ordered by `created_at` descending, and each successful insert returned a record whose
id is not among the items then held and which is not older than any of them, `items` has
pairwise distinct ids and is ordered by `created_at` descending. -/
theorem invariant_of_reliable_run (ops : List Op) (h : ReliableRun initialState ops) :
    DistinctIds (run initialState ops).items ∧ NewestFirst (run initialState ops).items :=
  run_preserves_invariant ops initialState List.nodup_nil List.Pairwise.nil h

/-- Witness for C7 as amended: the five example scenarios of the specification in a row. -/
theorem invariant_of_reliable_run_witness :
    DistinctIds (run initialState
      [.refresh (.success (some [])),
       .create "Buy milk" (.success ⟨1, "Buy milk", 10⟩),
       .create "Walk dog" (.success ⟨2, "Walk dog", 20⟩),
       .remove 1 (.success ()),
       .create "x" (.failure ⟨some "network error"⟩)]).items ∧
    NewestFirst (run initialState
      [.refresh (.success (some [])),
       .create "Buy milk" (.success ⟨1, "Buy milk", 10⟩),
       .create "Walk dog" (.success ⟨2, "Walk dog", 20⟩),
       .remove 1 (.success ()),
       .create "x" (.failure ⟨some "network error"⟩)]).items :=
  invariant_of_reliable_run _ (by decide)

/-- C7 as stated fails: the component neither sorts nor compares what the remote returns.
Two successful creates from the empty initial state, the second record carrying an older
`created_at` than the first, leave a list that is not ordered newest first. -/
theorem invariant_fails_on_older_insert :
    ¬ NewestFirst (run initialState
      [.create "a" (.success ⟨1, "a", 10⟩),
       .create "b" (.success ⟨2, "b", 5⟩)]).items := by
  decide

/-- C8, as the code has it: `fetchItems`, `removeItem`, and `addItem` with a text that is
not blank set `error` to the empty string before their remote call, so what `error` held
before does not survive: after a success it is the empty string, after a failure it is
the new failure's message (for `addItem` and `removeItem` the fallback text when that
message is empty or missing).  `addItem` with a blank text returns first and leaves
`error` as it was. -/
theorem error_cleared_at_start (s : State) (id : Nat) :
    ((fetchItemsStart s).error = some "" ∧
      (∀ data, (fetchItems s (.success data)).state.error = some "") ∧
      (∀ e, (fetchItems s (.failure e)).state.error = e.message)) ∧
    ((removeItemStart s).error = some "" ∧
      (removeItem s id (.success ())).state.error = some "" ∧
      (∀ o e, o.error? = some e →
        (removeItem s id o).state.error = some (jsOr e.message "Failed to remove"))) ∧
    (jsTrim s.text ≠ "" →
      (∃ s1, addItemStart s = some s1 ∧ s1.error = some "") ∧
      (∀ r, (addItem s (.success r)).state.error = some "") ∧
      (∀ o e, o.error? = some e →
        (addItem s o).state.error = some (jsOr e.message "Failed to add"))) ∧
    (jsTrim s.text = "" →
      addItemStart s = none ∧ ∀ o, (addItem s o).state.error = s.error) := by
  refine ⟨⟨rfl, fun _ => rfl, fun _ => rfl⟩, ⟨rfl, ?_, fun o e ho => ?_⟩, fun h => ?_,
    fun h => ?_⟩
  · simp [removeItem, removeItemStart, removeItemResume, removeItemTry]
  · cases o <;>
      simp_all [Outcome.error?, removeItem, removeItemStart, removeItemResume, removeItemTry]
  · refine ⟨⟨{ s with loading := true, error := some "" }, by simp [addItemStart, h], rfl⟩,
      fun r => ?_, fun o e ho => ?_⟩
    · rw [addItem_of_not_blank s _ h]
      simp [addItemResume, addItemTry]
    · rw [addItem_of_not_blank s _ h]
      cases o <;> simp_all [Outcome.error?, addItemResume, addItemTry]
  · refine ⟨by simp [addItemStart, h], fun o => ?_⟩
    rw [addItem_of_blank s o h]

/-- Witness for C8 as amended: with an old message shown, a failed insert of a real text
leaves only the new message, and a blank submit leaves the old one. -/
theorem error_cleared_at_start_witness :
    (addItem ⟨[], "x", false, some "old failure"⟩
      (.failure ⟨some "network error"⟩)).state.error = some "network error" ∧
    (addItem ⟨[], "  ", false, some "old failure"⟩
      (.failure ⟨some "network error"⟩)).state.error = some "old failure" :=
  ⟨((error_cleared_at_start ⟨[], "x", false, some "old failure"⟩ 0).2.2.1 (by decide)).2.2
      (.failure ⟨some "network error"⟩) ⟨some "network error"⟩ rfl,
   ((error_cleared_at_start ⟨[], "  ", false, some "old failure"⟩ 0).2.2.2 (by decide)).2
      (.failure ⟨some "network error"⟩)⟩

/-- C8 as stated fails: `addItem` with a blank text returns at the guard, before
`setError("")`, so a message left by an earlier failure is still there afterwards. -/
theorem error_survives_blank_submit :
    (addItem ⟨[⟨1, "a", 5⟩], "  ", false, some "old failure"⟩
      (.success ⟨2, "  ", 6⟩)).state.error = some "old failure" := by
  decide

/-- C9 at the failing input: when the awaited select rejects, `fetchItems` has no `try`
around it, so the fault leaves the function (its promise rejects with it) and `error` is
left at the empty string it was cleared to; `addItem` and `removeItem` given the same
rejection complete normally and store its message. -/
theorem fetchItems_rejection_escapes :
    (fetchItems ⟨[⟨1, "a", 5⟩], "x", false, some ""⟩
      (.rejected ⟨some "Failed to fetch"⟩)).raised = some ⟨some "Failed to fetch"⟩ ∧
    (fetchItems ⟨[⟨1, "a", 5⟩], "x", false, some ""⟩
      (.rejected ⟨some "Failed to fetch"⟩)).state.error = some "" ∧
    (addItem ⟨[⟨1, "a", 5⟩], "x", false, some ""⟩
      (.rejected ⟨some "Failed to fetch"⟩)).raised = none ∧
    (addItem ⟨[⟨1, "a", 5⟩], "x", false, some ""⟩
      (.rejected ⟨some "Failed to fetch"⟩)).state.error = some "Failed to fetch" ∧
    (removeItem ⟨[⟨1, "a", 5⟩], "x", false, some ""⟩ 1
      (.rejected ⟨some "Failed to fetch"⟩)).raised = none ∧
    (removeItem ⟨[⟨1, "a", 5⟩], "x", false, some ""⟩ 1
      (.rejected ⟨some "Failed to fetch"⟩)).state.error = some "Failed to fetch" := by
  decide

/-- C10. A successful `removeItem(id)` on a list with pairwise distinct ids ordered by
`created_at` descending leaves a list with pairwise distinct ids ordered by `created_at`
descending; when the id is not in the list the list is unchanged; and a second successful
`removeItem(id)` of the same id changes nothing. -/
theorem removeItem_preserves_invariant (s : State) (id : Nat)
    (hd : DistinctIds s.items) (hn : NewestFirst s.items) :
    DistinctIds (removeItem s id (.success ())).state.items ∧
    NewestFirst (removeItem s id (.success ())).state.items ∧
    ((∀ i ∈ s.items, i.id ≠ id) → (removeItem s id (.success ())).state.items = s.items) ∧
    (removeItem (removeItem s id (.success ())).state id (.success ())).state.items
      = (removeItem s id (.success ())).state.items := by
  rw [removeItem_success_items, removeItem_success_items, removeItem_success_items]
  refine ⟨distinctIds_filter _ _ hd, newestFirst_filter _ _ hn, fun h => ?_, ?_⟩
  · exact List.filter_eq_self.mpr (fun i hi => by simpa using h i hi)
  · simp [List.filter_filter]

/-- Witness for C10: removing id 2 from a well-formed list of three, then removing it
again. -/
theorem removeItem_preserves_invariant_witness :
    DistinctIds (removeItem ⟨[⟨3, "c", 9⟩, ⟨2, "b", 7⟩, ⟨1, "a", 5⟩], "", false, some ""⟩ 2
      (.success ())).state.items ∧
    NewestFirst (removeItem ⟨[⟨3, "c", 9⟩, ⟨2, "b", 7⟩, ⟨1, "a", 5⟩], "", false, some ""⟩ 2
      (.success ())).state.items ∧
    (removeItem ⟨[⟨3, "c", 9⟩, ⟨1, "a", 5⟩], "", false, some ""⟩ 2
      (.success ())).state.items = [⟨3, "c", 9⟩, ⟨1, "a", 5⟩] :=
  ⟨(removeItem_preserves_invariant ⟨[⟨3, "c", 9⟩, ⟨2, "b", 7⟩, ⟨1, "a", 5⟩], "", false,
      some ""⟩ 2 (by decide) (by decide)).1,
   (removeItem_preserves_invariant ⟨[⟨3, "c", 9⟩, ⟨2, "b", 7⟩, ⟨1, "a", 5⟩], "", false,
      some ""⟩ 2 (by decide) (by decide)).2.1,
   (removeItem_preserves_invariant ⟨[⟨3, "c", 9⟩, ⟨1, "a", 5⟩], "", false, some ""⟩ 2
      (by decide) (by decide)).2.2.1 (by decide)⟩

end App
